import Mathlib

/-!
Verification of the paper-extract-pipeline core: a shallow embedding of the
entity-resolution engine (`service/neo4j_svc.py`), the query-service caches and
ablation filters (`service/query_svc.py`), and the paper-existence check used by
the import route (`route.py`), together with theorems settling the frozen claims
about them.

Conventions of the embedding:
* Python strings handled character-by-character (regex scans, substring tests,
  `str.replace(..., 1)`) are `List Char`; opaque strings stay `String`.
* Floating-point scores, embeddings and timestamps become `ℚ`: every claim is
  about ordering comparisons, never rounding.
* The Neo4j transaction/session is explicit state; external lookups (the vector
  index, the declarative-query endpoint) are oracle functions passed in.
* Fallible external calls return `Except`.
-/

namespace PaperExtract

/-- Character-list strings, the carrier for Python string manipulation. -/
abbrev Str := List Char

/-- Python's substring test `pat in s`, scanning left to right. -/
def containsSub : Str → Str → Bool
  | s, pat =>
    pat.isPrefixOf s ||
      match s with
      | [] => false
      | _ :: t => containsSub t pat

/-- Python's `s.replace(pat, new, 1)`: replace the first occurrence of `pat`
(scanning left to right); if `pat` never occurs, return `s` unchanged. -/
def replaceFirst (pat new : Str) : Str → Str
  | [] => if pat = [] then new else []
  | c :: t =>
    if pat.isPrefixOf (c :: t) then new ++ (c :: t).drop pat.length
    else c :: replaceFirst pat new t

/-! ## C10: `check_paper_exists` and the `/importpaper` duplicate check

`neo4j_svc.check_paper_exists` runs
`MATCH (p:Paper) WHERE p.id CONTAINS "{paper_id}" RETURN *` and reports whether
any row came back; Cypher's `CONTAINS` is the substring test.  `route.py`'s
`/importpaper` handler raises `PaperAlreadyExistsError` when the check is true,
otherwise fetches the paper and adds it to the graph. -/

/-- A stored `Paper` node, as far as the existence check reads it: its `id`. -/
structure PaperNode where
  id : Str
  deriving DecidableEq, Repr

/-- Function `check_paper_exists`: some stored `Paper`'s `id` CONTAINS `paper_id`. -/
def check_paper_exists (store : List PaperNode) (paper_id : Str) : Bool :=
  store.any (fun p => containsSub p.id paper_id)

/-- Outcome of the `/importpaper` route for a given `paper_id`. -/
inductive ImportOutcome where
  /-- Outcome `PaperAlreadyExistsError`, raised by the duplicate check. -/
  | alreadyExists
  /-- Paper retrieved and added to the graph. -/
  | imported
  deriving DecidableEq, Repr

/-- The `/importpaper` duplicate gate in `route.py`:
raise `PaperAlreadyExistsError` when `check_paper_exists` is true, else import. -/
def import_paper_to_graph (store : List PaperNode) (paper_id : Str) : ImportOutcome :=
  if check_paper_exists store paper_id then .alreadyExists else .imported

/-! ## Entity resolution: `neo4j_svc.find_or_create_vector_node`

The transaction is explicit: the node table is a `List VNode` and the
approximate-nearest-neighbor lookup (`CALL db.index.vector.queryNodes`) is an
oracle from index name and embedding to either rows `(node, score)` ordered by
the store, or a raised driver error.  The Python function has no `try`/`except`,
so in the embedding it returns `Except`: an oracle error is propagated. -/

/-- A graph node as `find_or_create_vector_node` writes it: `key` is the value
stored at the label's `id_property` (`id` for `Paper`, `title` otherwise). -/
structure VNode where
  label : String
  key : String
  title : String
  description : String
  embedding : List ℚ
  deriving DecidableEq, Repr

/-- A Neo4j driver error raised by `tx.run` (e.g. unknown vector index). -/
structure Neo4jError where
  message : String
  deriving DecidableEq, Repr

/-- The vector-index lookup `db.index.vector.queryNodes(index_name, 1, emb)`:
rows `(node, score)` in store order, or a raised error. -/
abbrev VSearchOracle := String → List ℚ → Except Neo4jError (List (VNode × ℚ))

/-- What `find_or_create_vector_node` returns to its caller: either a node's
property map (`exact_match[0]["n"]` / `result[0]["node"]`) or the fresh-create
marker `{"id": node_id}`. -/
inductive NodeRef where
  | node (n : VNode)
  | created (id : String)
  deriving DecidableEq, Repr

/-- The natural key of the node a `NodeRef` refers to. -/
def NodeRef.refKey : NodeRef → String
  | .node n => n.key
  | .created i => i

/-- The exact-key lookup
`MATCH (n:label {id_property: $node_id}) RETURN n LIMIT 1`. -/
def exactMatch (nodes : List VNode) (label key : String) : Option VNode :=
  nodes.find? (fun n => n.label == label && n.key == key)

/-- Function `neo4j_svc.find_or_create_vector_node`: exact-key lookup, then top-1 vector
search against `{label.lower()}_vector_index` with the similarity-threshold
test `score >= threshold`, else `CREATE` of a fresh node. -/
def find_or_create_vector_node (vsearch : VSearchOracle) (nodes : List VNode)
    (label node_id title description : String) (embedding : List ℚ)
    (threshold : ℚ) : Except Neo4jError (NodeRef × List VNode) :=
  match exactMatch nodes label node_id with
  | some n => .ok (.node n, nodes)
  | none =>
    match vsearch (label.toLower ++ "_vector_index") embedding with
    | .error e => .error e
    | .ok result =>
      match result with
      | (m, score) :: _ =>
        if threshold ≤ score then .ok (.node m, nodes)
        else
          .ok (.created node_id,
            nodes ++ [⟨label, node_id, title, description, embedding⟩])
      | [] =>
        .ok (.created node_id,
          nodes ++ [⟨label, node_id, title, description, embedding⟩])

/-- The exact-key predicate used by `exactMatch` and for node counting. -/
def keyedAs (label key : String) (n : VNode) : Bool :=
  n.label == label && n.key == key

/-! ## Ablation query rewriting: `query_svc._apply_ablation_filters`

The Python rewrite is regex- and substring-based over the raw query text:
`re.findall(r"MATCH\s+\((\w+)", q)` collects pattern variables,
`"WHERE" in q` picks the branch, and `q.replace(" RETURN", ..., 1)` splices a
negative label condition in front of the first ` RETURN`.  The embedding
mirrors each of those string operations over `List Char`. -/

/-- ASCII `\w`, the variable-name class of `MATCH\s+\((\w+)`. -/
def isWordChar (c : Char) : Bool := c.isAlpha || c.isDigit || c == '_'

/-- ASCII `\s`. -/
def isSpaceChar (c : Char) : Bool :=
  c == ' ' || c == '\t' || c == '\n' || c == '\r' || c == '\x0b' || c == '\x0c'

/-- Try the regex `MATCH\s+\((\w+)` anchored at the head of `s`; on success
return the captured variable name and the remainder of `s` after the match. -/
def matchMatchVar (s : Str) : Option (Str × Str) :=
  if "MATCH".data.isPrefixOf s then
    let t := s.drop 5
    if (t.takeWhile isSpaceChar).isEmpty then none
    else
      match t.dropWhile isSpaceChar with
      | '(' :: u =>
        let w := u.takeWhile isWordChar
        if w.isEmpty then none else some (w, u.drop w.length)
      | _ => none
  else none

/-- Scan of `re.findall(r"MATCH\s+\((\w+)", s)`: go left to right, collecting
non-overlapping matches and resuming after each one.  Fuelled by `s.length`,
which bounds the number of scan steps. -/
def findVarsAux : Nat → Str → List Str
  | 0, _ => []
  | _ + 1, [] => []
  | fuel + 1, c :: t =>
    match matchMatchVar (c :: t) with
    | some (v, rest) => v :: findVarsAux fuel rest
    | none => findVarsAux fuel t

/-- All variables captured by `re.findall(r"MATCH\s+\((\w+)", s)`. -/
def findVars (s : Str) : List Str := findVarsAux s.length s

/-- Helper for `dedupVars`: keep each variable's first occurrence only. -/
def dedupVarsGo (seen : List Str) : List Str → List Str
  | [] => []
  | x :: xs =>
    if seen.contains x then dedupVarsGo seen xs
    else x :: dedupVarsGo (x :: seen) xs

/-- Python's `set(variables)` iteration, modelled with first-occurrence order
(the claims below only ever meet singleton variable sets, where the unspecified
iteration order of a Python set is irrelevant). -/
def dedupVars (l : List Str) : List Str := dedupVarsGo [] l

/-- Python's `sep.join(parts)`. -/
def joinSep (sep : Str) : List Str → Str
  | [] => []
  | [x] => x
  | x :: y :: xs => x ++ sep ++ joinSep sep (y :: xs)

/-- One iteration of the `for node_type in excluded_node_types` loop of
`_apply_ablation_filters`: if the query already has a `WHERE`, append
` AND NOT var:node_type` (once per distinct variable, skipping conditions
already present) before the first ` RETURN`; otherwise splice a fresh
` WHERE NOT var₁:node_type AND ...` before the first ` RETURN` (doing nothing
when no pattern variable was found). -/
def applyOneNodeType (nt : String) (mq : Str) : Str :=
  if containsSub mq "WHERE".data then
    (dedupVars (findVars mq)).foldl
      (fun acc var =>
        let wc := " AND NOT ".data ++ var ++ ':' :: nt.data
        if containsSub acc wc then acc
        else replaceFirst " RETURN".data (wc ++ " RETURN".data) acc)
      mq
  else
    let vars := dedupVars (findVars mq)
    if vars.isEmpty then mq
    else
      let wc := " WHERE ".data ++
        joinSep " AND ".data (vars.map (fun v => "NOT ".data ++ v ++ ':' :: nt.data))
      replaceFirst " RETURN".data (wc ++ " RETURN".data) mq

/-- Function `query_svc._apply_ablation_filters` restricted to what can change the
query: the excluded-node-type rewriting loop.  (The excluded-relationship loop
of the source only logs a warning when a `[..:REL]` pattern matches and never
modifies the query, so it is the identity on the returned text.) -/
def apply_ablation_filters (excluded_node_types : List String) (q : Str) : Str :=
  excluded_node_types.foldl (fun mq nt => applyOneNodeType nt mq) q

/-- Property that `pat` cannot overlap itself: no strict rotation aligns it with itself.
Holds for the literal patterns spliced by the rewriter (e.g. `" RETURN"`). -/
def SelfOverlapFree (pat : Str) : Prop :=
  ∀ k, 0 < k → k < pat.length → pat.drop k ≠ pat.take (pat.length - k)

instance (pat : Str) : Decidable (SelfOverlapFree pat) :=
  decidable_of_iff
    (∀ k < pat.length, 0 < k → pat.drop k ≠ pat.take (pat.length - k))
    ⟨fun h k hk hklen => h k hklen hk, fun h k hklen hk => h k hk hklen⟩

/-! ## Result caches and filters: `query_svc`

`query_neo4j` and `vector_search` are pure state transformers here: they take
the cache contents and the current time and return `(result, cache', computed)`
where `computed` records whether the underlying store was invoked.  Python
keys the two dicts on `md5(text)`; the hash is used only as a dictionary key,
so the model keys on the text itself.  The two `time.time()` reads inside one
call are modelled as a single instant `now`. -/

/-- One row of a declarative-query result set (opaque serialised record). -/
structure QRec where
  payload : String
  deriving DecidableEq, Repr

/-- One vector-search result record `{"node": ..., "score": ...}`, carrying
the two places `_filter_results_by_node_type` looks for a label list: the
`labels` entry of the node dict, and a top-level `labels` entry. -/
structure VRec where
  nodeLabels : Option (List String)
  resLabels : Option (List String)
  node : String
  score : ℚ
  deriving DecidableEq, Repr

/-- Label list the filter reads: `node.get("labels", [])`, falling back to
`result["labels"]` when the former is missing or empty. -/
def recordLabels (r : VRec) : List String :=
  let ls := r.nodeLabels.getD []
  if ls = [] then r.resLabels.getD [] else ls

/-- Function `query_svc._filter_results_by_node_type`. -/
def filter_results_by_node_type (excluded : List String)
    (results : List VRec) : List VRec :=
  if excluded = [] then results
  else results.filter
    (fun r => ! (recordLabels r).any (fun l => excluded.contains l))

/-- Ablation configuration record.  `query_svc` imports `AblationConfig` from
`models.models`, where it is absent from the sources.  Modelled from the spec:
§3 "Ablation Configuration" supplies the shape, with field names taken from
their uses in `query_svc` (`excluded_node_types`, `excluded_relationships`,
`max_vector_results`, and the capability toggles read by
`_create_query_agent`). -/
structure AblationConfig where
  enable_graphrag : Bool := true
  enable_cypher_queries : Bool := true
  enable_vector_search : Bool := true
  excluded_node_types : List String := []
  excluded_relationships : List String := []
  max_vector_results : Option Nat := none

/-- Cache contents: association of cache keys with `(result, timestamp)`. -/
abbrev Cache (α : Type) := List (String × α × ℚ)

/-- Dictionary lookup on a cache. -/
def cacheFind {α : Type} (c : Cache α) (k : String) : Option (α × ℚ) :=
  (c.find? (fun e => e.1 == k)).map (fun e => e.2)

/-- Dictionary assignment `cache[key] = value`. -/
def cacheStore {α : Type} (c : Cache α) (k : String) (v : α × ℚ) : Cache α :=
  if c.any (fun e => e.1 == k) then
    c.map (fun e => if e.1 == k then (k, v) else e)
  else c ++ [(k, v)]

/-- Function `query_svc._is_cache_valid`: `now - timestamp < CACHE_TTL`. -/
def is_cache_valid (ttl now ts : ℚ) : Bool := now - ts < ttl

/-- One cache's half of `query_svc._clean_expired_cache`: remove every entry
with `now - timestamp >= CACHE_TTL`. -/
def clean_expired_cache {α : Type} (ttl now : ℚ) (c : Cache α) : Cache α :=
  c.filter (fun e => now - e.2.2 < ttl)

/-- Ambient configuration and external collaborators of `query_svc`:
`CACHE_ENABLE`, `CACHE_TTL`, the current ablation configuration, and the two
Neo4j round trips (`process_query`, and `embed_content` composed with
`process_vector_search`) as deterministic oracles. -/
structure QueryEnv where
  cache_enable : Bool
  cache_ttl : ℚ
  config : AblationConfig
  store : String → List QRec
  vstore : String → Nat → String → List VRec

/-- Tool `query_svc.query_neo4j`: apply the ablation rewrite, sweep expired
entries, consult the query cache when enabled, compute and store on miss or
stale hit.  Returns `(records, cache', computed)`. -/
def query_neo4j (env : QueryEnv) (cache : Cache (List QRec)) (now : ℚ)
    (cypher_query : Str) : List QRec × Cache (List QRec) × Bool :=
  let modified_query : String :=
    ⟨apply_ablation_filters env.config.excluded_node_types cypher_query⟩
  let cache1 := clean_expired_cache env.cache_ttl now cache
  if env.cache_enable then
    match cacheFind cache1 modified_query with
    | some (cached, ts) =>
      if is_cache_valid env.cache_ttl now ts then (cached, cache1, false)
      else
        let records := env.store modified_query
        (records, cacheStore cache1 modified_query (records, now), true)
    | none =>
      let records := env.store modified_query
      (records, cacheStore cache1 modified_query (records, now), true)
  else (env.store modified_query, cache1, true)

/-- Tool `query_svc.vector_search`: clamp `top_k` to `max_vector_results`,
sweep expired entries, consult the vector cache when enabled (filtering a hit
with the *current* configuration), compute on miss, cache the raw pre-filter
records, and return the filtered results.  Returns
`(results, cache', computed)`. -/
def vector_search (env : QueryEnv) (vcache : Cache (List VRec)) (now : ℚ)
    (query_text index_name : String) (top_k : Nat) :
    List VRec × Cache (List VRec) × Bool :=
  let k := match env.config.max_vector_results with
    | some m => min top_k m
    | none => top_k
  let cache1 := clean_expired_cache env.cache_ttl now vcache
  let cache_query := query_text ++ "|" ++ index_name ++ "|" ++ toString k
  if env.cache_enable then
    match cacheFind cache1 cache_query with
    | some (cached, ts) =>
      if is_cache_valid env.cache_ttl now ts then
        (filter_results_by_node_type env.config.excluded_node_types cached,
          cache1, false)
      else
        let results := env.vstore index_name k query_text
        (filter_results_by_node_type env.config.excluded_node_types results,
          cacheStore cache1 cache_query (results, now), true)
    | none =>
      let results := env.vstore index_name k query_text
      (filter_results_by_node_type env.config.excluded_node_types results,
        cacheStore cache1 cache_query (results, now), true)
  else
    (filter_results_by_node_type env.config.excluded_node_types
      (env.vstore index_name k query_text), cache1, true)

/-- Concrete environment for witnesses: caching on, `ttl = 10`, default
ablation configuration, constant store oracles. -/
def demoQueryEnv : QueryEnv where
  cache_enable := true
  cache_ttl := 10
  config := {}
  store := fun _ => [⟨"row"⟩]
  vstore := fun _ _ _ =>
    [⟨some ["Dataset"], none, "d", 9/10⟩, ⟨some ["Model"], none, "m", 8/10⟩]

/-- Environment with caching disabled, for the C5 witness. -/
def demoQueryEnvOff : QueryEnv := { demoQueryEnv with cache_enable := false }

/-- Environment excluding `Dataset` nodes, for the C6 witness. -/
def demoQueryEnvExcl : QueryEnv :=
  { demoQueryEnv with config := { excluded_node_types := ["Dataset"] } }

/-! ## C9: the query orchestrator's tool-call bound

`query_svc.query` builds a `pydantic_ai` agent and runs it with
`usage_limits=UsageLimits(request_limit=100)`.  The "Maximum 5 tool calls"
rule exists only inside the system-prompt text returned by
`_get_base_prompt_rules`; nothing in the code counts tool calls.  The agent's
request loop itself lives in the external `pydantic_ai` library, so it is
modelled from the spec's interface (§4.4, §6): per request, the policy either
invokes one registered tool or terminates with `{reasoning, answer}`. -/

/-- Modelled from the spec: one decision of the language-model policy in the
tool-call loop (§6 "Language Model Policy") — invoke one declared tool or
return the structured result. -/
inductive PolicyAction where
  | callTool (name args : String)
  | finish (reasoning answer : String)

/-- Modelled from the spec: outcome of the bounded agent run.  Exhausting the
request budget raises (`pydantic_ai` `UsageLimitExceeded`), recorded here as
`usageLimitExceeded`. -/
inductive LoopResult where
  | answered (reasoning answer : String) (toolCalls : Nat)
  | usageLimitExceeded (toolCalls : Nat)
  deriving DecidableEq, Repr

/-- Modelled from the spec: the request loop driven by the policy, with the
remaining request budget as fuel; each iteration is one model request, and a
`callTool` consumes the request and appends to the history. -/
def runToolLoopAux (policy : List (String × String) → PolicyAction) :
    Nat → List (String × String) → LoopResult
  | 0, history => .usageLimitExceeded history.length
  | n + 1, history =>
    match policy history with
    | .finish r a => .answered r a history.length
    | .callTool nm args => runToolLoopAux policy n (history ++ [(nm, args)])

/-- Request limit configured by `query_svc.query`:
`UsageLimits(request_limit=100)`. -/
def QUERY_REQUEST_LIMIT : Nat := 100

/-- The orchestrator's bounded run for one question: the policy against the
configured request limit, starting from an empty tool-call history. -/
def query_tool_loop (policy : List (String × String) → PolicyAction) :
    LoopResult :=
  runToolLoopAux policy QUERY_REQUEST_LIMIT []

theorem containsSub_nil (pat : Str) : containsSub [] pat = pat.isPrefixOf [] := by
  simp [containsSub]

theorem containsSub_cons (c : Char) (t pat : Str) :
    containsSub (c :: t) pat = (pat.isPrefixOf (c :: t) || containsSub t pat) := by
  simp [containsSub]

/-- Claim of positions: `containsSub` agrees with the positional characterisation of occurrence. -/
theorem containsSub_iff (s pat : Str) :
    containsSub s pat = true ↔ ∃ s₁ s₂, s = s₁ ++ s₂ ∧ pat.isPrefixOf s₂ = true := by
  induction s with
  | nil =>
    rw [containsSub_nil]
    constructor
    · intro h; exact ⟨[], [], rfl, h⟩
    · rintro ⟨s₁, s₂, h, hp⟩
      obtain ⟨rfl, rfl⟩ := List.append_eq_nil.mp h.symm
      exact hp
  | cons c t ih =>
    rw [containsSub_cons]
    constructor
    · intro h
      rcases Bool.or_eq_true_iff.mp h with h | h
      · exact ⟨[], c :: t, rfl, h⟩
      · obtain ⟨s₁, s₂, rfl, hp⟩ := ih.mp h
        exact ⟨c :: s₁, s₂, rfl, hp⟩
    · rintro ⟨s₁, s₂, h, hp⟩
      cases s₁ with
      | nil => simp at h; subst h; exact Bool.or_eq_true_iff.mpr (Or.inl hp)
      | cons d t₁ =>
        simp at h
        obtain ⟨rfl, rfl⟩ := h
        exact Bool.or_eq_true_iff.mpr (Or.inr (ih.mpr ⟨t₁, s₂, rfl, hp⟩))

/-- If `pat` occurs nowhere in `s`, it is a prefix of no suffix of `s`. -/
theorem not_prefix_of_not_containsSub {s pat : Str} (h : containsSub s pat = false)
    {s₁ s₂ : Str} (hsplit : s = s₁ ++ s₂) : pat.isPrefixOf s₂ = false := by
  by_contra hp
  have hp' : pat.isPrefixOf s₂ = true := by
    cases heq : pat.isPrefixOf s₂ <;> simp_all
  have : containsSub s pat = true := (containsSub_iff s pat).mpr ⟨s₁, s₂, hsplit, hp'⟩
  rw [h] at this; exact Bool.false_ne_true this

/-- C10. `check_paper_exists` is the substring test: true iff some stored
`Paper`'s `id` contains `paper_id` as a (contiguous) substring — not only on
exact equality — and consequently `/importpaper` rejects a `paper_id` that is a
strict substring of a different stored paper's id even though no paper with
that exact id exists. -/
theorem check_paper_exists_contains (store : List PaperNode) (paper_id : Str) :
    (check_paper_exists store paper_id = true ↔
      ∃ p ∈ store, ∃ pre post, p.id = pre ++ paper_id ++ post) ∧
    ((∃ p ∈ store, ∃ pre post, p.id = pre ++ paper_id ++ post) →
      import_paper_to_graph store paper_id = .alreadyExists) := by
  have hmain : check_paper_exists store paper_id = true ↔
      ∃ p ∈ store, ∃ pre post, p.id = pre ++ paper_id ++ post := by
    unfold check_paper_exists
    rw [List.any_eq_true]
    constructor
    · rintro ⟨p, hp, hc⟩
      obtain ⟨s₁, s₂, hsplit, hpre⟩ := (containsSub_iff p.id paper_id).mp hc
      obtain ⟨post, hpost⟩ := List.isPrefixOf_iff_prefix.mp hpre
      exact ⟨p, hp, s₁, post, by rw [hsplit, ← hpost, List.append_assoc]⟩
    · rintro ⟨p, hp, pre, post, hsplit⟩
      refine ⟨p, hp, (containsSub_iff p.id paper_id).mpr ⟨pre, paper_id ++ post, ?_, ?_⟩⟩
      · rw [hsplit, List.append_assoc]
      · exact List.isPrefixOf_iff_prefix.mpr ⟨post, rfl⟩
  refine ⟨hmain, fun hex => ?_⟩
  unfold import_paper_to_graph
  rw [if_pos (hmain.mpr hex)]

theorem check_paper_exists_contains_witness :
    (∃ p ∈ [PaperNode.mk "2301.00001v2".data], ∃ pre post,
        p.id = pre ++ "2301.00001".data ++ post) ∧
    (¬ ∃ p ∈ [PaperNode.mk "2301.00001v2".data], p.id = "2301.00001".data) ∧
    import_paper_to_graph [PaperNode.mk "2301.00001v2".data] "2301.00001".data =
      .alreadyExists := by
  refine ⟨⟨PaperNode.mk "2301.00001v2".data, by simp, [], "v2".data, by decide⟩, by decide, ?_⟩
  exact (check_paper_exists_contains _ _).2
    ⟨PaperNode.mk "2301.00001v2".data, by simp, [], "v2".data, by decide⟩

/-- C1. When the exact-key lookup misses: if the top-1 match of the label's
vector index scores at least `threshold`, the existing matched node is returned
and the node table is unchanged (the new natural key is discarded); otherwise a
new node with exactly the given natural key, title, description and embedding
is created and returned. -/
theorem find_or_create_similarity_dedup (vsearch : VSearchOracle)
    (nodes : List VNode) (label node_id title description : String)
    (embedding : List ℚ) (threshold : ℚ) (res : List (VNode × ℚ))
    (hmiss : exactMatch nodes label node_id = none)
    (hv : vsearch (label.toLower ++ "_vector_index") embedding = .ok res) :
    (∀ m score rest, res = (m, score) :: rest → threshold ≤ score →
      find_or_create_vector_node vsearch nodes label node_id title description
          embedding threshold = .ok (.node m, nodes)) ∧
    ((res = [] ∨ ∃ m score rest, res = (m, score) :: rest ∧ score < threshold) →
      find_or_create_vector_node vsearch nodes label node_id title description
          embedding threshold =
        .ok (.created node_id,
          nodes ++ [⟨label, node_id, title, description, embedding⟩])) := by
  constructor
  · rintro m score rest rfl hsc
    unfold find_or_create_vector_node
    rw [hmiss, hv]
    simp [hsc]
  · rintro (rfl | ⟨m, score, rest, rfl, hsc⟩)
    · unfold find_or_create_vector_node
      rw [hmiss, hv]
    · unfold find_or_create_vector_node
      rw [hmiss, hv]
      simp [not_le.mpr hsc]

/-- Witness for C1: a store whose index reports a `0.97`-similar `Dataset` node
merges (threshold `0.94`), while an empty index result creates the node. -/
theorem find_or_create_similarity_dedup_witness :
    find_or_create_vector_node
        (fun _ _ => .ok [(⟨"Dataset", "MNIST", "MNIST", "digits", [1]⟩, 97/100)])
        [⟨"Dataset", "MNIST", "MNIST", "digits", [1]⟩] "Dataset" "MNIST-like"
        "MNIST-like" "a new digits set" [1] (94/100) =
      .ok (.node ⟨"Dataset", "MNIST", "MNIST", "digits", [1]⟩,
        [⟨"Dataset", "MNIST", "MNIST", "digits", [1]⟩]) ∧
    find_or_create_vector_node (fun _ _ => .ok []) [] "Dataset" "MNIST-like"
        "MNIST-like" "a new digits set" [1] (94/100) =
      .ok (.created "MNIST-like",
        [⟨"Dataset", "MNIST-like", "MNIST-like", "a new digits set", [1]⟩]) := by
  constructor
  · exact (find_or_create_similarity_dedup _ _ _ _ _ _ _ _ _ (by decide) rfl).1
      _ (97/100) [] rfl (by norm_num)
  · exact (find_or_create_similarity_dedup _ _ _ _ _ _ _ _ _ (by decide) rfl).2
      (Or.inl rfl)

theorem exactMatch_eq_find? (nodes : List VNode) (label key : String) :
    exactMatch nodes label key = nodes.find? (keyedAs label key) := rfl

/-- C2. On an exact-key hit, `find_or_create_vector_node` returns the stored
node unchanged with the node table untouched, for any vector oracle and any
submitted title, description, embedding and threshold (so no vector search and
no write can influence the outcome).  Consequently, when the key is free and the
index reports no merge-worthy match, submitting the same `(label, natural_key)`
twice creates on the first call, returns that very node unchanged on the second
call (again for any oracle and any second-submission attributes), both results
refer to the same key, and exactly one node with that `(label, natural_key)`
exists afterwards. -/
theorem find_or_create_exact_key_idempotent (vs vs' : VSearchOracle)
    (nodes : List VNode) (label node_id title description title' description' :
      String) (embedding embedding' : List ℚ) (threshold threshold' : ℚ) :
    (∀ n, exactMatch nodes label node_id = some n →
      find_or_create_vector_node vs nodes label node_id title description
          embedding threshold = .ok (.node n, nodes)) ∧
    (exactMatch nodes label node_id = none →
      ∀ res, vs (label.toLower ++ "_vector_index") embedding = .ok res →
        (res = [] ∨ ∃ m s rest, res = (m, s) :: rest ∧ s < threshold) →
        find_or_create_vector_node vs nodes label node_id title description
            embedding threshold =
          .ok (.created node_id,
            nodes ++ [⟨label, node_id, title, description, embedding⟩]) ∧
        find_or_create_vector_node vs'
            (nodes ++ [⟨label, node_id, title, description, embedding⟩]) label
            node_id title' description' embedding' threshold' =
          .ok (.node ⟨label, node_id, title, description, embedding⟩,
            nodes ++ [⟨label, node_id, title, description, embedding⟩]) ∧
        (NodeRef.created node_id).refKey =
          (NodeRef.node ⟨label, node_id, title, description, embedding⟩).refKey ∧
        ((nodes ++ [(⟨label, node_id, title, description, embedding⟩ : VNode)]).countP
          (keyedAs label node_id)) = 1) := by
  constructor
  · intro n hhit
    unfold find_or_create_vector_node
    rw [hhit]
  · intro hmiss res hv hres
    have hcreate := (find_or_create_similarity_dedup vs nodes label node_id
      title description embedding threshold res hmiss hv).2 hres
    have hnewkey : keyedAs label node_id
        ⟨label, node_id, title, description, embedding⟩ = true := by
      simp [keyedAs]
    have hmiss' : nodes.find? (keyedAs label node_id) = none := by
      rw [← exactMatch_eq_find?]; exact hmiss
    have hfind : exactMatch
        (nodes ++ [⟨label, node_id, title, description, embedding⟩]) label
          node_id = some ⟨label, node_id, title, description, embedding⟩ := by
      rw [exactMatch_eq_find?]
      simp [List.find?_append, hmiss', List.find?_cons_of_pos _ hnewkey]
    refine ⟨hcreate, ?_, rfl, ?_⟩
    · unfold find_or_create_vector_node
      rw [hfind]
    · have h0 : nodes.countP (keyedAs label node_id) = 0 :=
        List.countP_eq_zero.mpr (fun a ha => by
          have := List.find?_eq_none.mp hmiss' a ha
          simpa using this)
      rw [List.countP_append, h0]
      simp [List.countP_cons, hnewkey]

/-- Witness for C2: first submission of `("Dataset", "MNIST")` creates the node
(empty index answer), the second returns it unchanged even under a different
oracle and different attributes, and exactly one such node exists. -/
theorem find_or_create_exact_key_idempotent_witness :
    find_or_create_vector_node (fun _ _ => .ok []) [] "Dataset" "MNIST" "MNIST"
        "digits" [1] (95/100) =
      .ok (.created "MNIST", [⟨"Dataset", "MNIST", "MNIST", "digits", [1]⟩]) ∧
    find_or_create_vector_node (fun _ _ => .error ⟨"index offline"⟩)
        [⟨"Dataset", "MNIST", "MNIST", "digits", [1]⟩] "Dataset" "MNIST"
        "MNIST v2" "other digits" [2] (1/2) =
      .ok (.node ⟨"Dataset", "MNIST", "MNIST", "digits", [1]⟩,
        [⟨"Dataset", "MNIST", "MNIST", "digits", [1]⟩]) ∧
    ([⟨"Dataset", "MNIST", "MNIST", "digits", [1]⟩] : List VNode).countP
      (keyedAs "Dataset" "MNIST") = 1 := by
  have h := (find_or_create_exact_key_idempotent (fun _ _ => .ok [])
    (fun _ _ => .error ⟨"index offline"⟩) [] "Dataset" "MNIST" "MNIST" "digits"
    "MNIST v2" "other digits" [1] [2] (95/100) (1/2)).2 (by decide) [] rfl
    (Or.inl rfl)
  exact ⟨h.1, h.2.1, h.2.2.2⟩

/-- C3 counterexample. `find_or_create_vector_node` has no exception
handling around the vector-index lookup: at a concrete input where the exact
key is free and the lookup raises (e.g. the index does not exist yet), the
error is propagated to the caller and no node is created — the call does not
behave as "no match, proceed to create". -/
theorem find_or_create_lookup_error_propagates :
    find_or_create_vector_node (fun _ _ => .error ⟨"no such vector index"⟩) []
        "Dataset" "MNIST" "MNIST" "digits" [1] (95/100) =
      .error ⟨"no such vector index"⟩ ∧
    ∀ r st, find_or_create_vector_node
        (fun _ _ => .error ⟨"no such vector index"⟩) [] "Dataset" "MNIST"
        "MNIST" "digits" [1] (95/100) ≠ .ok (r, st) := by
  refine ⟨rfl, ?_⟩
  intro r st h
  rw [show find_or_create_vector_node (fun _ _ => .error ⟨"no such vector index"⟩)
      [] "Dataset" "MNIST" "MNIST" "digits" [1] (95/100) =
      .error ⟨"no such vector index"⟩ from rfl] at h
  exact Except.noConfusion h

/-- C3 amended. When the exact-key lookup misses: a vector-index lookup
that returns successfully with no rows is treated as "no similarity match" and
the new node is created; but a lookup that raises is propagated unchanged to
the caller and nothing is created. -/
theorem find_or_create_lookup_failure_semantics (vsearch : VSearchOracle)
    (nodes : List VNode) (label node_id title description : String)
    (embedding : List ℚ) (threshold : ℚ)
    (hmiss : exactMatch nodes label node_id = none) :
    (vsearch (label.toLower ++ "_vector_index") embedding = .ok [] →
      find_or_create_vector_node vsearch nodes label node_id title description
          embedding threshold =
        .ok (.created node_id,
          nodes ++ [⟨label, node_id, title, description, embedding⟩])) ∧
    (∀ e, vsearch (label.toLower ++ "_vector_index") embedding = .error e →
      find_or_create_vector_node vsearch nodes label node_id title description
          embedding threshold = .error e) := by
  constructor
  · intro hv
    exact (find_or_create_similarity_dedup vsearch nodes label node_id title
      description embedding threshold [] hmiss hv).2 (Or.inl rfl)
  · intro e hv
    unfold find_or_create_vector_node
    rw [hmiss, hv]

/-- Witness for the amended C3 at concrete inputs: an empty index answer
creates; a raised lookup error is returned as-is. -/
theorem find_or_create_lookup_failure_semantics_witness :
    find_or_create_vector_node (fun _ _ => .ok []) [] "Model" "BERT" "BERT"
        "encoder" [1] (95/100) =
      .ok (.created "BERT", [⟨"Model", "BERT", "BERT", "encoder", [1]⟩]) ∧
    find_or_create_vector_node (fun _ _ => .error ⟨"index not online"⟩) []
        "Model" "BERT" "BERT" "encoder" [1] (95/100) =
      .error ⟨"index not online"⟩ := by
  constructor
  · exact (find_or_create_lookup_failure_semantics (fun _ _ => .ok []) []
      "Model" "BERT" "BERT" "encoder" [1] (95/100) (by decide)).1 rfl
  · exact (find_or_create_lookup_failure_semantics
      (fun _ _ => .error ⟨"index not online"⟩) [] "Model" "BERT" "BERT"
      "encoder" [1] (95/100) (by decide)).2 ⟨"index not online"⟩ rfl

/-- A self-overlap-free `pat` matches nowhere strictly before the designated
occurrence in `A ++ pat ++ B` when it does not occur in `A` at all. -/
theorem not_isPrefixOf_of_nonnil {pat A : Str} (B : Str)
    (hA : containsSub A pat = false) (hov : SelfOverlapFree pat)
    (hne : A ≠ []) : pat.isPrefixOf (A ++ pat ++ B) = false := by
  cases h : pat.isPrefixOf (A ++ pat ++ B) with
  | false => rfl
  | true =>
  exfalso
  have hp : pat <+: A ++ pat ++ B := List.isPrefixOf_iff_prefix.mp h
  rcases le_or_lt pat.length A.length with hle | hgt
  · have htake : pat = List.take pat.length (A ++ pat ++ B) :=
      List.prefix_iff_eq_take.mp hp
    rw [List.append_assoc, List.take_append_eq_append_take,
      Nat.sub_eq_zero_of_le hle, List.take_zero, List.append_nil] at htake
    have hpfx : pat <+: A := htake ▸ List.take_prefix _ _
    have : containsSub A pat = true :=
      (containsSub_iff A pat).mpr ⟨[], A, rfl, List.isPrefixOf_iff_prefix.mpr hpfx⟩
    rw [hA] at this
    exact Bool.false_ne_true this
  · obtain ⟨r, hr⟩ := hp
    have hk0 : 0 < A.length := List.length_pos.mpr hne
    have hdrop := congrArg (List.drop A.length) hr
    rw [List.drop_append_eq_append_drop,
      Nat.sub_eq_zero_of_le (Nat.le_of_lt hgt), List.drop_zero,
      List.append_assoc, List.drop_left] at hdrop
    have hlen : (pat.drop A.length).length = pat.length - A.length := by
      rw [List.length_drop]
    have hpfx2 : pat.drop A.length <+: pat ++ B := ⟨r, hdrop⟩
    have htake2 : pat.drop A.length =
        List.take (pat.length - A.length) (pat ++ B) := by
      have := List.prefix_iff_eq_take.mp hpfx2
      rwa [hlen] at this
    rw [List.take_append_eq_append_take,
      Nat.sub_eq_zero_of_le (by omega : pat.length - A.length ≤ pat.length),
      List.take_zero, List.append_nil] at htake2
    exact hov A.length hk0 hgt htake2

/-- Lemma use: `replaceFirst` rewrites exactly the designated occurrence when `pat` does
not occur earlier and cannot straddle the boundary. -/
theorem replaceFirst_at_first {pat : Str} (new A B : Str)
    (hA : containsSub A pat = false) (hov : SelfOverlapFree pat) :
    replaceFirst pat new (A ++ pat ++ B) = A ++ new ++ B := by
  induction A with
  | nil =>
    simp only [List.nil_append]
    cases pat with
    | nil => exact absurd hA (by simp [containsSub])
    | cons p ps =>
      rw [show (p :: ps) ++ B = p :: (ps ++ B) from rfl]
      rw [replaceFirst]
      rw [if_pos]
      · rw [show p :: (ps ++ B) = (p :: ps) ++ B from rfl, List.drop_left]
      · exact List.isPrefixOf_iff_prefix.mpr ⟨B, by simp⟩
  | cons a A' ih =>
    have hA' : containsSub A' pat = false := by
      have := containsSub_cons a A' pat
      rw [hA] at this
      exact (Bool.or_eq_false_iff.mp this.symm).2
    have hhead : pat.isPrefixOf ((a :: A') ++ pat ++ B) = false :=
      not_isPrefixOf_of_nonnil B hA hov (List.cons_ne_nil a A')
    rw [show (a :: A') ++ pat ++ B = a :: (A' ++ pat ++ B) by simp]
    rw [replaceFirst]
    rw [show a :: (A' ++ pat ++ B) = (a :: A') ++ pat ++ B by simp, hhead]
    simp only [Bool.false_eq_true, if_false]
    rw [ih hA']
    simp

/-- A string with no occurrence of `MATCH` yields no regex captures. -/
theorem findVarsAux_eq_nil (fuel : Nat) :
    ∀ s : Str, containsSub s "MATCH".data = false → findVarsAux fuel s = [] := by
  induction fuel with
  | zero => intro s _; rfl
  | succ fuel ih =>
    intro s hs
    cases s with
    | nil => rfl
    | cons c t =>
      have hsplit := containsSub_cons c t "MATCH".data
      rw [hs] at hsplit
      obtain ⟨hpre, ht⟩ := Bool.or_eq_false_iff.mp hsplit.symm
      have hm : matchMatchVar (c :: t) = none := by
        unfold matchMatchVar
        rw [hpre]
        simp
      rw [findVarsAux, hm]
      exact ih t ht

/-- The scan of a query of shape `MATCH (n)⋯` with no further `MATCH`
occurrence captures exactly the variable `n`. -/
theorem findVars_matchN (suf : Str)
    (h : containsSub (')' :: suf) "MATCH".data = false) :
    findVars ("MATCH (n)".data ++ suf) = ["n".data] := by
  have hq : "MATCH (n)".data ++ suf =
      'M' :: 'A' :: 'T' :: 'C' :: 'H' :: ' ' :: '(' :: 'n' :: ')' :: suf := rfl
  have hm : matchMatchVar
      ('M' :: 'A' :: 'T' :: 'C' :: 'H' :: ' ' :: '(' :: 'n' :: ')' :: suf) =
      some ("n".data, ')' :: suf) := rfl
  unfold findVars
  rw [hq]
  have hlen : ('M' :: 'A' :: 'T' :: 'C' :: 'H' :: ' ' :: '(' :: 'n' :: ')' ::
      suf).length = suf.length + 9 := by simp
  rw [hlen, findVarsAux, hm]
  show "n".data :: findVarsAux (suf.length + 8) (')' :: suf) = ["n".data]
  rw [findVarsAux_eq_nil (suf.length + 8) (')' :: suf) h]

/-- Core behaviour of the node-type rewriting pass on a query whose only
pattern clause is `MATCH (n)` and whose first ` RETURN` follows `mid`: the
condition `NOT n:Dataset` is spliced immediately before that first ` RETURN` —
after ` AND ` when the query already contains `WHERE`, after a fresh
` WHERE ` otherwise — and everything after the first ` RETURN` is kept
verbatim. -/
theorem applyOneNodeType_dataset_inserts (mid B : Str)
    (hnoM : containsSub (')' :: (mid ++ (" RETURN".data ++ B))) "MATCH".data = false)
    (hnoR : containsSub ("MATCH (n)".data ++ mid) " RETURN".data = false)
    (hnoClause : containsSub ("MATCH (n)".data ++ (mid ++ (" RETURN".data ++ B)))
      " AND NOT n:Dataset".data = false) :
    ∃ glue : Str,
      ((glue = " AND ".data ∧
          containsSub ("MATCH (n)".data ++ (mid ++ (" RETURN".data ++ B)))
            "WHERE".data = true) ∨
        (glue = " WHERE ".data ∧
          containsSub ("MATCH (n)".data ++ (mid ++ (" RETURN".data ++ B)))
            "WHERE".data = false)) ∧
      applyOneNodeType "Dataset"
          ("MATCH (n)".data ++ (mid ++ (" RETURN".data ++ B))) =
        "MATCH (n)".data ++ mid ++ glue ++ "NOT n:Dataset".data ++
          " RETURN".data ++ B := by
  have hvars : dedupVars (findVars
      ("MATCH (n)".data ++ (mid ++ (" RETURN".data ++ B)))) = ["n".data] := by
    rw [findVars_matchN _ hnoM]
    simp [dedupVars, dedupVarsGo]
  have hov : SelfOverlapFree " RETURN".data := by decide
  have hq' : "MATCH (n)".data ++ (mid ++ (" RETURN".data ++ B)) =
      ("MATCH (n)".data ++ mid) ++ " RETURN".data ++ B := by
    simp [List.append_assoc]
  cases hW : containsSub ("MATCH (n)".data ++ (mid ++ (" RETURN".data ++ B)))
      "WHERE".data with
  | true =>
    refine ⟨" AND ".data, Or.inl ⟨rfl, rfl⟩, ?_⟩
    unfold applyOneNodeType
    rw [hW, hvars]
    simp only [if_true, List.foldl_cons, List.foldl_nil]
    rw [show (" AND NOT ".data ++ "n".data ++ ':' :: "Dataset".data : Str) =
      " AND NOT n:Dataset".data from rfl]
    rw [hnoClause]
    simp only [Bool.false_eq_true, if_false]
    rw [hq', replaceFirst_at_first _ _ _ hnoR hov]
    simp only [List.append_assoc]
    rfl
  | false =>
    refine ⟨" WHERE ".data, Or.inr ⟨rfl, rfl⟩, ?_⟩
    unfold applyOneNodeType
    rw [hW, hvars]
    simp only [Bool.false_eq_true, if_false, List.isEmpty_cons, List.map_cons,
      List.map_nil]
    rw [show (joinSep " AND ".data ["NOT ".data ++ "n".data ++
      ':' :: "Dataset".data] : Str) = "NOT n:Dataset".data from rfl]
    rw [hq', replaceFirst_at_first _ _ _ hnoR hov]
    simp only [List.append_assoc]

/-- C7. On a query with exactly one `MATCH (n) ... RETURN n` clause (no
other `MATCH`, no other ` RETURN`, the condition not already present),
`_apply_ablation_filters` with excluded node types `{"Dataset"}` yields the
query with `NOT n:Dataset` spliced in front of the ` RETURN` clause: appended
with ` AND ` to the existing filter clause when the query contains `WHERE`,
or introduced by a fresh ` WHERE ` when none exists. -/
theorem apply_ablation_filters_single_match_dataset (mid : Str)
    (hnoM : containsSub (')' :: (mid ++ " RETURN n".data)) "MATCH".data = false)
    (hnoR : containsSub ("MATCH (n)".data ++ mid) " RETURN".data = false)
    (hnoClause : containsSub ("MATCH (n)".data ++ (mid ++ " RETURN n".data))
      " AND NOT n:Dataset".data = false) :
    ∃ glue : Str,
      ((glue = " AND ".data ∧
          containsSub ("MATCH (n)".data ++ (mid ++ " RETURN n".data))
            "WHERE".data = true) ∨
        (glue = " WHERE ".data ∧
          containsSub ("MATCH (n)".data ++ (mid ++ " RETURN n".data))
            "WHERE".data = false)) ∧
      apply_ablation_filters ["Dataset"]
          ("MATCH (n)".data ++ (mid ++ " RETURN n".data)) =
        "MATCH (n)".data ++ mid ++ glue ++ "NOT n:Dataset".data ++
          " RETURN n".data := by
  obtain ⟨glue, hg, hout⟩ := applyOneNodeType_dataset_inserts mid " n".data
    hnoM hnoR hnoClause
  refine ⟨glue, hg, ?_⟩
  show applyOneNodeType "Dataset"
      ("MATCH (n)".data ++ (mid ++ (" RETURN".data ++ " n".data))) = _
  rw [hout]
  simp only [List.append_assoc]
  rfl

/-- Witness for C7 at the concrete query
`MATCH (n) WHERE n.x = 1 RETURN n`: the rewrite appends
` AND NOT n:Dataset` to the existing `WHERE` clause, before `RETURN`. -/
theorem apply_ablation_filters_single_match_dataset_witness :
    ∃ glue : Str,
      ((glue = " AND ".data ∧
          containsSub ("MATCH (n)".data ++ (" WHERE n.x = 1".data ++
            " RETURN n".data)) "WHERE".data = true) ∨
        (glue = " WHERE ".data ∧
          containsSub ("MATCH (n)".data ++ (" WHERE n.x = 1".data ++
            " RETURN n".data)) "WHERE".data = false)) ∧
      apply_ablation_filters ["Dataset"]
          ("MATCH (n)".data ++ (" WHERE n.x = 1".data ++ " RETURN n".data)) =
        "MATCH (n)".data ++ " WHERE n.x = 1".data ++ glue ++
          "NOT n:Dataset".data ++ " RETURN n".data :=
  apply_ablation_filters_single_match_dataset " WHERE n.x = 1".data
    (by decide) (by decide) (by decide)

/-- C8 counterexample. On a concrete query with two projection clauses,
`MATCH (n) RETURN n UNION MATCH (m) RETURN m`, the rewrite with excluded node
types `{"Dataset"}` does not fail closed: it splices a `WHERE` clause (for both
captured variables) in front of the *first* ` RETURN` and returns the modified
text — not the query unmodified. -/
theorem apply_ablation_filters_multi_return_modifies :
    apply_ablation_filters ["Dataset"]
        "MATCH (n) RETURN n UNION MATCH (m) RETURN m".data =
      ("MATCH (n) WHERE NOT n:Dataset AND NOT m:Dataset RETURN n " ++
        "UNION MATCH (m) RETURN m").data ∧
    apply_ablation_filters ["Dataset"]
        "MATCH (n) RETURN n UNION MATCH (m) RETURN m".data ≠
      "MATCH (n) RETURN n UNION MATCH (m) RETURN m".data := by
  constructor
  · decide
  · decide

/-- C8 amended. With a non-empty excluded set, a query whose text continues
after its first ` RETURN` (in particular one with further projection clauses in
the tail `B`) is not returned unmodified: the negative label condition is
spliced before the first ` RETURN` only, the entire tail — including any later
projection clause — is kept verbatim, and the result differs from the input. -/
theorem apply_ablation_filters_first_return_only (mid B : Str)
    (hnoM : containsSub (')' :: (mid ++ (" RETURN".data ++ B))) "MATCH".data = false)
    (hnoR : containsSub ("MATCH (n)".data ++ mid) " RETURN".data = false)
    (hnoClause : containsSub ("MATCH (n)".data ++ (mid ++ (" RETURN".data ++ B)))
      " AND NOT n:Dataset".data = false) :
    ∃ glue : Str,
      ((glue = " AND ".data ∧
          containsSub ("MATCH (n)".data ++ (mid ++ (" RETURN".data ++ B)))
            "WHERE".data = true) ∨
        (glue = " WHERE ".data ∧
          containsSub ("MATCH (n)".data ++ (mid ++ (" RETURN".data ++ B)))
            "WHERE".data = false)) ∧
      apply_ablation_filters ["Dataset"]
          ("MATCH (n)".data ++ (mid ++ (" RETURN".data ++ B))) =
        "MATCH (n)".data ++ mid ++ glue ++ "NOT n:Dataset".data ++
          " RETURN".data ++ B ∧
      apply_ablation_filters ["Dataset"]
          ("MATCH (n)".data ++ (mid ++ (" RETURN".data ++ B))) ≠
        "MATCH (n)".data ++ (mid ++ (" RETURN".data ++ B)) := by
  obtain ⟨glue, hg, hout⟩ := applyOneNodeType_dataset_inserts mid B
    hnoM hnoR hnoClause
  have hout' : apply_ablation_filters ["Dataset"]
      ("MATCH (n)".data ++ (mid ++ (" RETURN".data ++ B))) =
      "MATCH (n)".data ++ mid ++ glue ++ "NOT n:Dataset".data ++
        " RETURN".data ++ B := hout
  refine ⟨glue, hg, hout', ?_⟩
  intro heq
  rw [hout'] at heq
  have hlen := congrArg List.length heq
  simp only [List.length_append] at hlen
  have l1 : ("NOT n:Dataset".data).length = 13 := rfl
  have l2 : ((" RETURN".data : Str)).length = 7 := rfl
  have l3 : ((" AND ".data : Str)).length = 5 := rfl
  have l4 : ((" WHERE ".data : Str)).length = 7 := rfl
  rcases hg with ⟨hg, _⟩ | ⟨hg, _⟩ <;> subst hg <;>
    rw [l1, l2] at hlen
  · rw [l3] at hlen; omega
  · rw [l4] at hlen; omega

/-- Witness for the amended C8: the query `MATCH (n) RETURN n UNION RETURN m`
(two ` RETURN` occurrences) gets ` WHERE NOT n:Dataset` spliced before the
first ` RETURN` with the tail kept, and is not returned unmodified. -/
theorem apply_ablation_filters_first_return_only_witness :
    ∃ glue : Str,
      ((glue = " AND ".data ∧
          containsSub ("MATCH (n)".data ++ ([] ++ (" RETURN".data ++
            " n UNION RETURN m".data))) "WHERE".data = true) ∨
        (glue = " WHERE ".data ∧
          containsSub ("MATCH (n)".data ++ ([] ++ (" RETURN".data ++
            " n UNION RETURN m".data))) "WHERE".data = false)) ∧
      apply_ablation_filters ["Dataset"]
          ("MATCH (n)".data ++ ([] ++ (" RETURN".data ++
            " n UNION RETURN m".data))) =
        "MATCH (n)".data ++ [] ++ glue ++ "NOT n:Dataset".data ++
          " RETURN".data ++ " n UNION RETURN m".data ∧
      apply_ablation_filters ["Dataset"]
          ("MATCH (n)".data ++ ([] ++ (" RETURN".data ++
            " n UNION RETURN m".data))) ≠
        "MATCH (n)".data ++ ([] ++ (" RETURN".data ++
          " n UNION RETURN m".data)) :=
  apply_ablation_filters_first_return_only [] " n UNION RETURN m".data
    (by decide) (by decide) (by decide)

theorem cacheFind_none_any {α : Type} {c : Cache α} {k : String}
    (h : cacheFind c k = none) : c.any (fun e => e.1 == k) = false := by
  unfold cacheFind at h
  rw [Option.map_eq_none'] at h
  rw [List.any_eq_false]
  intro e he
  have := List.find?_eq_none.mp h e he
  simpa using this

theorem cacheFind_filter_none {α : Type} {c : Cache α} {k : String}
    (P : String × α × ℚ → Bool) (h : cacheFind c k = none) :
    cacheFind (c.filter P) k = none := by
  unfold cacheFind at h ⊢
  rw [Option.map_eq_none'] at h ⊢
  rw [List.find?_eq_none] at h ⊢
  intro e he
  exact h e (List.mem_of_mem_filter he)

theorem cacheStore_fresh {α : Type} {c : Cache α} {k : String} (v : α × ℚ)
    (h : cacheFind c k = none) : cacheStore c k v = c ++ [(k, v)] := by
  unfold cacheStore
  rw [cacheFind_none_any h]
  simp

theorem cacheFind_append_single {α : Type} {c : Cache α} {k : String}
    (v : α × ℚ) (h : cacheFind c k = none) :
    cacheFind (c ++ [(k, v)]) k = some v := by
  unfold cacheFind at h ⊢
  rw [Option.map_eq_none'] at h
  rw [List.find?_append, h]
  simp

/-- C4. With caching enabled, after a first `query_neo4j` call that missed
and stored `(result, t0)` under its key: a second call with the same key at
`t1` with `t1 - t0 < ttl` returns the cached result without invoking the
store; a second call with `t1 - t0 ≥ ttl` (entry swept as stale) invokes the
store again, stores the fresh `(result, t1)`, and returns it. -/
theorem query_neo4j_cache_semantics (env : QueryEnv) (cache : Cache (List QRec))
    (t0 t1 : ℚ) (q : Str) (henable : env.cache_enable = true)
    (hmiss : cacheFind (clean_expired_cache env.cache_ttl t0 cache)
      (⟨apply_ablation_filters env.config.excluded_node_types q⟩ : String) =
        none) :
    query_neo4j env cache t0 q =
      (env.store ⟨apply_ablation_filters env.config.excluded_node_types q⟩,
        clean_expired_cache env.cache_ttl t0 cache ++
          [(⟨apply_ablation_filters env.config.excluded_node_types q⟩,
            env.store ⟨apply_ablation_filters env.config.excluded_node_types q⟩,
            t0)],
        true) ∧
    (t1 - t0 < env.cache_ttl →
      query_neo4j env
          (clean_expired_cache env.cache_ttl t0 cache ++
            [(⟨apply_ablation_filters env.config.excluded_node_types q⟩,
              env.store
                ⟨apply_ablation_filters env.config.excluded_node_types q⟩,
              t0)])
          t1 q =
        (env.store ⟨apply_ablation_filters env.config.excluded_node_types q⟩,
          clean_expired_cache env.cache_ttl t1
            (clean_expired_cache env.cache_ttl t0 cache) ++
            [(⟨apply_ablation_filters env.config.excluded_node_types q⟩,
              env.store
                ⟨apply_ablation_filters env.config.excluded_node_types q⟩,
              t0)],
          false)) ∧
    (env.cache_ttl ≤ t1 - t0 →
      query_neo4j env
          (clean_expired_cache env.cache_ttl t0 cache ++
            [(⟨apply_ablation_filters env.config.excluded_node_types q⟩,
              env.store
                ⟨apply_ablation_filters env.config.excluded_node_types q⟩,
              t0)])
          t1 q =
        (env.store ⟨apply_ablation_filters env.config.excluded_node_types q⟩,
          clean_expired_cache env.cache_ttl t1
            (clean_expired_cache env.cache_ttl t0 cache) ++
            [(⟨apply_ablation_filters env.config.excluded_node_types q⟩,
              env.store
                ⟨apply_ablation_filters env.config.excluded_node_types q⟩,
              t1)],
          true)) := by
  set mq : String :=
    ⟨apply_ablation_filters env.config.excluded_node_types q⟩ with hmq
  set r : List QRec := env.store mq with hr
  refine ⟨?_, ?_, ?_⟩
  · show query_neo4j env cache t0 q = _
    simp only [query_neo4j, ← hmq, ← hr, henable, if_true, hmiss]
    rw [cacheStore_fresh _ hmiss]
  · intro hfresh
    have hvalid : is_cache_valid env.cache_ttl t1 t0 = true := by
      unfold is_cache_valid
      exact decide_eq_true hfresh
    have hclean1 : clean_expired_cache env.cache_ttl t1
        (clean_expired_cache env.cache_ttl t0 cache ++ [(mq, r, t0)]) =
        clean_expired_cache env.cache_ttl t1
          (clean_expired_cache env.cache_ttl t0 cache) ++ [(mq, r, t0)] := by
      unfold clean_expired_cache
      rw [List.filter_append]
      congr 1
      simp [hfresh]
    have hfind : cacheFind
        (clean_expired_cache env.cache_ttl t1
          (clean_expired_cache env.cache_ttl t0 cache) ++ [(mq, r, t0)]) mq =
        some (r, t0) :=
      cacheFind_append_single (r, t0) (cacheFind_filter_none _ hmiss)
    simp only [query_neo4j, ← hmq, henable, if_true, hclean1, hfind, hvalid,
      if_true]
  · intro hstale
    have hvalidfalse : (t1 - t0 < env.cache_ttl) = False := by
      simp [not_lt.mpr hstale]
    have hclean1 : clean_expired_cache env.cache_ttl t1
        (clean_expired_cache env.cache_ttl t0 cache ++ [(mq, r, t0)]) =
        clean_expired_cache env.cache_ttl t1
          (clean_expired_cache env.cache_ttl t0 cache) := by
      unfold clean_expired_cache
      rw [List.filter_append]
      simp [hvalidfalse]
    have hfind : cacheFind
        (clean_expired_cache env.cache_ttl t1
          (clean_expired_cache env.cache_ttl t0 cache)) mq = none :=
      cacheFind_filter_none _ hmiss
    simp only [query_neo4j, ← hmq, ← hr, henable, if_true, hclean1, hfind]
    rw [cacheStore_fresh _ hfind]

/-- Witness for C4 with `t0 = 0`, `t1 = 1`, `ttl = 10`: the first call
computes and stores; the second call one time-unit later is served from the
cache without computing. -/
theorem query_neo4j_cache_semantics_witness :
    query_neo4j demoQueryEnv [] 0 "MATCH (n) RETURN n".data =
      ([⟨"row"⟩],
        clean_expired_cache demoQueryEnv.cache_ttl 0 [] ++
          [(⟨apply_ablation_filters demoQueryEnv.config.excluded_node_types
              "MATCH (n) RETURN n".data⟩, [⟨"row"⟩], 0)],
        true) ∧
    query_neo4j demoQueryEnv
        (clean_expired_cache demoQueryEnv.cache_ttl 0 [] ++
          [(⟨apply_ablation_filters demoQueryEnv.config.excluded_node_types
              "MATCH (n) RETURN n".data⟩, [⟨"row"⟩], 0)]) 1
        "MATCH (n) RETURN n".data =
      ([⟨"row"⟩],
        clean_expired_cache demoQueryEnv.cache_ttl 1
          (clean_expired_cache demoQueryEnv.cache_ttl 0 []) ++
          [(⟨apply_ablation_filters demoQueryEnv.config.excluded_node_types
              "MATCH (n) RETURN n".data⟩, [⟨"row"⟩], 0)],
        false) := by
  have h := query_neo4j_cache_semantics demoQueryEnv [] 0 1
    "MATCH (n) RETURN n".data rfl rfl
  exact ⟨h.1, h.2.1 (by show (1 : ℚ) - 0 < 10; norm_num)⟩

/-- C5. With caching disabled by configuration, `query_neo4j` and
`vector_search` are unconditional computes: the result is exactly the direct
store call (independent of any cache content), the compute flag is set, and no
cache entry is written (the cache only undergoes the unconditional expiry
sweep). -/
theorem cache_disabled_unconditional_compute (env : QueryEnv)
    (cache : Cache (List QRec)) (vcache : Cache (List VRec)) (now : ℚ)
    (q : Str) (query_text index_name : String) (top_k : Nat)
    (hdis : env.cache_enable = false) :
    query_neo4j env cache now q =
      (env.store ⟨apply_ablation_filters env.config.excluded_node_types q⟩,
        clean_expired_cache env.cache_ttl now cache, true) ∧
    vector_search env vcache now query_text index_name top_k =
      (filter_results_by_node_type env.config.excluded_node_types
          (env.vstore index_name
            (match env.config.max_vector_results with
              | some m => min top_k m
              | none => top_k) query_text),
        clean_expired_cache env.cache_ttl now vcache, true) := by
  constructor
  · simp only [query_neo4j, hdis, Bool.false_eq_true, if_false]
  · simp only [vector_search, hdis, Bool.false_eq_true, if_false]

/-- Witness for C5 at concrete inputs: with caching disabled, both tools
compute directly and only sweep the cache. -/
theorem cache_disabled_unconditional_compute_witness :
    query_neo4j demoQueryEnvOff [("k", [⟨"stale"⟩], 0)] 1
        "MATCH (n) RETURN n".data =
      (demoQueryEnvOff.store
          ⟨apply_ablation_filters demoQueryEnvOff.config.excluded_node_types
            "MATCH (n) RETURN n".data⟩,
        clean_expired_cache demoQueryEnvOff.cache_ttl 1
          [("k", [⟨"stale"⟩], 0)], true) ∧
    vector_search demoQueryEnvOff [] 1 "papers about X" "paper_vector_index"
        5 =
      (filter_results_by_node_type
          demoQueryEnvOff.config.excluded_node_types
          (demoQueryEnvOff.vstore "paper_vector_index"
            (match demoQueryEnvOff.config.max_vector_results with
              | some m => min 5 m
              | none => 5) "papers about X"),
        clean_expired_cache demoQueryEnvOff.cache_ttl 1 [], true) :=
  cache_disabled_unconditional_compute demoQueryEnvOff
    [("k", [⟨"stale"⟩], 0)] [] 1 "MATCH (n) RETURN n".data
    "papers about X" "paper_vector_index" 5 rfl

/-- C6. Vector-search filtering: (a) `_filter_results_by_node_type` is
exactly the order-preserving sublist of records whose label set does not meet
the excluded set (so every record with an excluded label is dropped and all
others keep content and relative order); (b) on a cache miss the raw
pre-filter records are cached while the filtered list is returned; (c) on a
valid cache hit the cached raw records are filtered with the configuration of
the *current* invocation. -/
theorem vector_search_filter_semantics (env : QueryEnv)
    (vcache : Cache (List VRec)) (now : ℚ) (query_text index_name : String)
    (top_k : Nat) (henable : env.cache_enable = true) :
    (∀ (excluded : List String) (results : List VRec),
      filter_results_by_node_type excluded results =
        results.filter
          (fun r => ! (recordLabels r).any (fun l => excluded.contains l)) ∧
      (filter_results_by_node_type excluded results).Sublist results) ∧
    (cacheFind (clean_expired_cache env.cache_ttl now vcache)
        (query_text ++ "|" ++ index_name ++ "|" ++
          toString (match env.config.max_vector_results with
            | some m => min top_k m
            | none => top_k)) = none →
      vector_search env vcache now query_text index_name top_k =
        (filter_results_by_node_type env.config.excluded_node_types
            (env.vstore index_name
              (match env.config.max_vector_results with
                | some m => min top_k m
                | none => top_k) query_text),
          cacheStore (clean_expired_cache env.cache_ttl now vcache)
            (query_text ++ "|" ++ index_name ++ "|" ++
              toString (match env.config.max_vector_results with
                | some m => min top_k m
                | none => top_k))
            (env.vstore index_name
              (match env.config.max_vector_results with
                | some m => min top_k m
                | none => top_k) query_text, now),
          true)) ∧
    (∀ (cached : List VRec) (ts : ℚ),
      cacheFind (clean_expired_cache env.cache_ttl now vcache)
          (query_text ++ "|" ++ index_name ++ "|" ++
            toString (match env.config.max_vector_results with
              | some m => min top_k m
              | none => top_k)) = some (cached, ts) →
      is_cache_valid env.cache_ttl now ts = true →
      vector_search env vcache now query_text index_name top_k =
        (filter_results_by_node_type env.config.excluded_node_types cached,
          clean_expired_cache env.cache_ttl now vcache, false)) := by
  refine ⟨?_, ?_, ?_⟩
  · intro excluded results
    cases hex : excluded with
    | nil =>
      constructor
      · unfold filter_results_by_node_type
        simp only [if_true]
        exact (List.filter_eq_self.mpr (fun a _ => by simp)).symm
      · unfold filter_results_by_node_type
        simp
    | cons e es =>
      constructor
      · unfold filter_results_by_node_type
        simp
      · unfold filter_results_by_node_type
        simp only [List.cons_ne_nil, if_false]
        exact List.filter_sublist results
  · intro hmiss
    simp only [vector_search, henable, if_true, hmiss]
  · intro cached ts hhit hvalid
    simp only [vector_search, henable, if_true, hhit, hvalid]

theorem clean_expired_singleton {α : Type} (ttl now ts : ℚ) (k : String)
    (v : α) (h : now - ts < ttl) :
    clean_expired_cache ttl now [(k, v, ts)] = [(k, v, ts)] := by
  simp [clean_expired_cache, List.filter, h]

theorem cacheFind_singleton_self {α : Type} (k : String) (v : α) (ts : ℚ) :
    cacheFind [(k, v, ts)] k = some (v, ts) := by
  simp [cacheFind, List.find?]

/-- Witness for C6: on a miss the raw two records (one `Dataset`, one `Model`)
are cached while only the `Model` record is returned; a later hit on a cache
holding those raw records again filters with the current configuration. -/
theorem vector_search_filter_semantics_witness :
    vector_search demoQueryEnvExcl [] 0 "q" "dataset_vector_index" 5 =
      (filter_results_by_node_type
          demoQueryEnvExcl.config.excluded_node_types
          (demoQueryEnvExcl.vstore "dataset_vector_index" 5 "q"),
        cacheStore (clean_expired_cache demoQueryEnvExcl.cache_ttl 0 [])
          ("q" ++ "|" ++ "dataset_vector_index" ++ "|" ++ toString 5)
          (demoQueryEnvExcl.vstore "dataset_vector_index" 5 "q", 0),
        true) ∧
    vector_search demoQueryEnvExcl
        [(("q" ++ "|" ++ "dataset_vector_index" ++ "|" ++ toString 5 : String),
          demoQueryEnvExcl.vstore "dataset_vector_index" 5 "q", 0)] 1 "q"
        "dataset_vector_index" 5 =
      (filter_results_by_node_type
          demoQueryEnvExcl.config.excluded_node_types
          (demoQueryEnvExcl.vstore "dataset_vector_index" 5 "q"),
        clean_expired_cache demoQueryEnvExcl.cache_ttl 1
          [(("q" ++ "|" ++ "dataset_vector_index" ++ "|" ++ toString 5 :
              String),
            demoQueryEnvExcl.vstore "dataset_vector_index" 5 "q", 0)],
        false) := by
  constructor
  · exact (vector_search_filter_semantics demoQueryEnvExcl [] 0 "q"
      "dataset_vector_index" 5 rfl).2.1 rfl
  · refine (vector_search_filter_semantics demoQueryEnvExcl _ 1 "q"
      "dataset_vector_index" 5 rfl).2.2
      (demoQueryEnvExcl.vstore "dataset_vector_index" 5 "q") 0 ?_ ?_
    · show cacheFind (clean_expired_cache 10 1
        [(("q" ++ "|" ++ "dataset_vector_index" ++ "|" ++ toString 5 : String),
          demoQueryEnvExcl.vstore "dataset_vector_index" 5 "q", 0)])
        ("q" ++ "|" ++ "dataset_vector_index" ++ "|" ++ toString 5) =
        some (demoQueryEnvExcl.vstore "dataset_vector_index" 5 "q", 0)
      rw [clean_expired_singleton 10 1 0 _ _ (by norm_num)]
      exact cacheFind_singleton_self _ _ 0
    · show is_cache_valid 10 1 0 = true
      exact decide_eq_true (by norm_num)

/-- C9 counterexample. A policy that chooses a tool for its first six
requests completes successfully with six tool calls: the core enforces no
ceiling of five tool calls, so the claimed bound fails at this execution. -/
theorem query_tool_loop_six_calls :
    query_tool_loop
        (fun h => if h.length < 6 then .callTool "vector_search" "papers"
          else .finish "t" "a") =
      .answered "t" "a" 6 ∧ 5 < 6 := by
  constructor
  · rfl
  · norm_num

set_option maxRecDepth 4000 in
/-- C9 amended. The core enforces no five-tool-call ceiling (that figure
is prompt text only): the only hard bound is the request limit 100 configured
via `UsageLimits`, so any successful run performs at most 100 tool calls, runs
with more than 5 tool calls exist, and a policy that never finishes exhausts
the request budget and ends in the `UsageLimitExceeded` error rather than a
forced graceful answer. -/
theorem query_tool_loop_request_limit_only :
    (∀ (policy : List (String × String) → PolicyAction) (r a : String)
      (n : Nat), query_tool_loop policy = .answered r a n →
        n ≤ QUERY_REQUEST_LIMIT) ∧
    query_tool_loop
        (fun h => if h.length < 6 then .callTool "vector_search" "papers"
          else .finish "t" "a") =
      .answered "t" "a" 6 ∧
    query_tool_loop (fun _ => .callTool "query_neo4j" "MATCH (n) RETURN n") =
      .usageLimitExceeded QUERY_REQUEST_LIMIT := by
  have haux : ∀ (fuel : Nat) (policy : List (String × String) → PolicyAction)
      (hist : List (String × String)) (r a : String) (n : Nat),
      runToolLoopAux policy fuel hist = .answered r a n →
        n ≤ fuel + hist.length := by
    intro fuel
    induction fuel with
    | zero => intro policy hist r a n h; exact absurd h (by simp [runToolLoopAux])
    | succ m ih =>
      intro policy hist r a n h
      rw [runToolLoopAux] at h
      cases hp : policy hist with
      | finish r' a' =>
        rw [hp] at h
        simp only [LoopResult.answered.injEq] at h
        omega
      | callTool nm args =>
        rw [hp] at h
        have := ih policy (hist ++ [(nm, args)]) r a n h
        simp at this
        omega
  refine ⟨?_, ?_, ?_⟩
  · intro policy r a n h
    have := haux QUERY_REQUEST_LIMIT policy [] r a n h
    simpa using this
  · rfl
  · rfl

/-- Witness for the amended C9: the six-call run is successful and its
tool-call count is within the request limit. -/
theorem query_tool_loop_request_limit_only_witness :
    query_tool_loop
        (fun h => if h.length < 3 then .callTool "query_neo4j" "q"
          else .finish "done" "ans") =
      .answered "done" "ans" 3 ∧ 3 ≤ QUERY_REQUEST_LIMIT := by
  constructor
  · rfl
  · exact (query_tool_loop_request_limit_only).1
      (fun h => if h.length < 3 then .callTool "query_neo4j" "q"
        else .finish "done" "ans") "done" "ans" 3 rfl

end PaperExtract
